import Mathlib

/-!
# VoiceIQ frontend (`src/frontend/config.js`): a shallow embedding

JavaScript strings are sequences of UTF-16 code units, modelled as `List Nat`.
Asynchronous functions are modelled by their sequential control flow: the
outcome of every external call (the network, the audio element, the clock) is a
parameter, and the observable effects are collected in an explicit trace.
-/

namespace VoiceIQ

/-! ## JavaScript values -/

deriving instance DecidableEq for Except

/-- A JavaScript string: its UTF-16 code units. -/
abbrev JSString := List Nat

/-- The code units of a string literal of the source (all literals are ASCII). -/
def lit (s : String) : JSString := s.toList.map Char.toNat

/-- A JavaScript number.  An `int` is an integer of magnitude below `2^53` with
its sign (so that `-0` is a value); `float` is any other finite number, a
fraction or a larger magnitude, carried with the string that the runtime's
number formatting gives it. -/
inductive JSNumber where
  | int (negative : Bool) (magnitude : Fin 9007199254740992) : JSNumber
  | nan : JSNumber
  | infinity (negative : Bool) : JSNumber
  | float (rendered : JSString) : JSNumber
  deriving DecidableEq

/-- A JavaScript value.  An `object` is a plain object; `exotic` is any other
object (one with its own `toString` or `valueOf`, a function, a `Date`),
carried with the outcome of its coercion to a string: the string, or `none`
when the coercion raises. -/
inductive JSValue where
  | undefined : JSValue
  | null : JSValue
  | boolean (b : Bool) : JSValue
  | number (x : JSNumber) : JSValue
  | bigint (n : Int) : JSValue
  | string (s : JSString) : JSValue
  | symbol (description : JSString) : JSValue
  | array (items : List JSValue) : JSValue
  | object : JSValue
  | exotic (coerced : Option JSString) : JSValue

mutual
/-- Decidable equality of values, constructor by constructor. -/
def JSValue.decEq : (a b : JSValue) → Decidable (a = b)
  | .undefined, .undefined => isTrue rfl
  | .undefined, .null => isFalse (fun e => JSValue.noConfusion e)
  | .undefined, .boolean _ => isFalse (fun e => JSValue.noConfusion e)
  | .undefined, .number _ => isFalse (fun e => JSValue.noConfusion e)
  | .undefined, .bigint _ => isFalse (fun e => JSValue.noConfusion e)
  | .undefined, .string _ => isFalse (fun e => JSValue.noConfusion e)
  | .undefined, .symbol _ => isFalse (fun e => JSValue.noConfusion e)
  | .undefined, .array _ => isFalse (fun e => JSValue.noConfusion e)
  | .undefined, .object => isFalse (fun e => JSValue.noConfusion e)
  | .undefined, .exotic _ => isFalse (fun e => JSValue.noConfusion e)
  | .null, .undefined => isFalse (fun e => JSValue.noConfusion e)
  | .null, .null => isTrue rfl
  | .null, .boolean _ => isFalse (fun e => JSValue.noConfusion e)
  | .null, .number _ => isFalse (fun e => JSValue.noConfusion e)
  | .null, .bigint _ => isFalse (fun e => JSValue.noConfusion e)
  | .null, .string _ => isFalse (fun e => JSValue.noConfusion e)
  | .null, .symbol _ => isFalse (fun e => JSValue.noConfusion e)
  | .null, .array _ => isFalse (fun e => JSValue.noConfusion e)
  | .null, .object => isFalse (fun e => JSValue.noConfusion e)
  | .null, .exotic _ => isFalse (fun e => JSValue.noConfusion e)
  | .boolean _, .undefined => isFalse (fun e => JSValue.noConfusion e)
  | .boolean _, .null => isFalse (fun e => JSValue.noConfusion e)
  | .boolean x, .boolean y => 
    if h : x = y then isTrue (by rw [h])
    else isFalse (fun e => h (JSValue.boolean.inj e))
  | .boolean _, .number _ => isFalse (fun e => JSValue.noConfusion e)
  | .boolean _, .bigint _ => isFalse (fun e => JSValue.noConfusion e)
  | .boolean _, .string _ => isFalse (fun e => JSValue.noConfusion e)
  | .boolean _, .symbol _ => isFalse (fun e => JSValue.noConfusion e)
  | .boolean _, .array _ => isFalse (fun e => JSValue.noConfusion e)
  | .boolean _, .object => isFalse (fun e => JSValue.noConfusion e)
  | .boolean _, .exotic _ => isFalse (fun e => JSValue.noConfusion e)
  | .number _, .undefined => isFalse (fun e => JSValue.noConfusion e)
  | .number _, .null => isFalse (fun e => JSValue.noConfusion e)
  | .number _, .boolean _ => isFalse (fun e => JSValue.noConfusion e)
  | .number x, .number y => 
    if h : x = y then isTrue (by rw [h])
    else isFalse (fun e => h (JSValue.number.inj e))
  | .number _, .bigint _ => isFalse (fun e => JSValue.noConfusion e)
  | .number _, .string _ => isFalse (fun e => JSValue.noConfusion e)
  | .number _, .symbol _ => isFalse (fun e => JSValue.noConfusion e)
  | .number _, .array _ => isFalse (fun e => JSValue.noConfusion e)
  | .number _, .object => isFalse (fun e => JSValue.noConfusion e)
  | .number _, .exotic _ => isFalse (fun e => JSValue.noConfusion e)
  | .bigint _, .undefined => isFalse (fun e => JSValue.noConfusion e)
  | .bigint _, .null => isFalse (fun e => JSValue.noConfusion e)
  | .bigint _, .boolean _ => isFalse (fun e => JSValue.noConfusion e)
  | .bigint _, .number _ => isFalse (fun e => JSValue.noConfusion e)
  | .bigint x, .bigint y => 
    if h : x = y then isTrue (by rw [h])
    else isFalse (fun e => h (JSValue.bigint.inj e))
  | .bigint _, .string _ => isFalse (fun e => JSValue.noConfusion e)
  | .bigint _, .symbol _ => isFalse (fun e => JSValue.noConfusion e)
  | .bigint _, .array _ => isFalse (fun e => JSValue.noConfusion e)
  | .bigint _, .object => isFalse (fun e => JSValue.noConfusion e)
  | .bigint _, .exotic _ => isFalse (fun e => JSValue.noConfusion e)
  | .string _, .undefined => isFalse (fun e => JSValue.noConfusion e)
  | .string _, .null => isFalse (fun e => JSValue.noConfusion e)
  | .string _, .boolean _ => isFalse (fun e => JSValue.noConfusion e)
  | .string _, .number _ => isFalse (fun e => JSValue.noConfusion e)
  | .string _, .bigint _ => isFalse (fun e => JSValue.noConfusion e)
  | .string x, .string y => 
    if h : x = y then isTrue (by rw [h])
    else isFalse (fun e => h (JSValue.string.inj e))
  | .string _, .symbol _ => isFalse (fun e => JSValue.noConfusion e)
  | .string _, .array _ => isFalse (fun e => JSValue.noConfusion e)
  | .string _, .object => isFalse (fun e => JSValue.noConfusion e)
  | .string _, .exotic _ => isFalse (fun e => JSValue.noConfusion e)
  | .symbol _, .undefined => isFalse (fun e => JSValue.noConfusion e)
  | .symbol _, .null => isFalse (fun e => JSValue.noConfusion e)
  | .symbol _, .boolean _ => isFalse (fun e => JSValue.noConfusion e)
  | .symbol _, .number _ => isFalse (fun e => JSValue.noConfusion e)
  | .symbol _, .bigint _ => isFalse (fun e => JSValue.noConfusion e)
  | .symbol _, .string _ => isFalse (fun e => JSValue.noConfusion e)
  | .symbol x, .symbol y => 
    if h : x = y then isTrue (by rw [h])
    else isFalse (fun e => h (JSValue.symbol.inj e))
  | .symbol _, .array _ => isFalse (fun e => JSValue.noConfusion e)
  | .symbol _, .object => isFalse (fun e => JSValue.noConfusion e)
  | .symbol _, .exotic _ => isFalse (fun e => JSValue.noConfusion e)
  | .array _, .undefined => isFalse (fun e => JSValue.noConfusion e)
  | .array _, .null => isFalse (fun e => JSValue.noConfusion e)
  | .array _, .boolean _ => isFalse (fun e => JSValue.noConfusion e)
  | .array _, .number _ => isFalse (fun e => JSValue.noConfusion e)
  | .array _, .bigint _ => isFalse (fun e => JSValue.noConfusion e)
  | .array _, .string _ => isFalse (fun e => JSValue.noConfusion e)
  | .array _, .symbol _ => isFalse (fun e => JSValue.noConfusion e)
  | .array x, .array y => 
    match JSValue.decEqList x y with
    | isTrue h => isTrue (by rw [h])
    | isFalse h => isFalse (fun e => h (JSValue.array.inj e))
  | .array _, .object => isFalse (fun e => JSValue.noConfusion e)
  | .array _, .exotic _ => isFalse (fun e => JSValue.noConfusion e)
  | .object, .undefined => isFalse (fun e => JSValue.noConfusion e)
  | .object, .null => isFalse (fun e => JSValue.noConfusion e)
  | .object, .boolean _ => isFalse (fun e => JSValue.noConfusion e)
  | .object, .number _ => isFalse (fun e => JSValue.noConfusion e)
  | .object, .bigint _ => isFalse (fun e => JSValue.noConfusion e)
  | .object, .string _ => isFalse (fun e => JSValue.noConfusion e)
  | .object, .symbol _ => isFalse (fun e => JSValue.noConfusion e)
  | .object, .array _ => isFalse (fun e => JSValue.noConfusion e)
  | .object, .object => isTrue rfl
  | .object, .exotic _ => isFalse (fun e => JSValue.noConfusion e)
  | .exotic _, .undefined => isFalse (fun e => JSValue.noConfusion e)
  | .exotic _, .null => isFalse (fun e => JSValue.noConfusion e)
  | .exotic _, .boolean _ => isFalse (fun e => JSValue.noConfusion e)
  | .exotic _, .number _ => isFalse (fun e => JSValue.noConfusion e)
  | .exotic _, .bigint _ => isFalse (fun e => JSValue.noConfusion e)
  | .exotic _, .string _ => isFalse (fun e => JSValue.noConfusion e)
  | .exotic _, .symbol _ => isFalse (fun e => JSValue.noConfusion e)
  | .exotic _, .array _ => isFalse (fun e => JSValue.noConfusion e)
  | .exotic _, .object => isFalse (fun e => JSValue.noConfusion e)
  | .exotic x, .exotic y => 
    if h : x = y then isTrue (by rw [h])
    else isFalse (fun e => h (JSValue.exotic.inj e))
/-- Decidable equality of lists of values. -/
def JSValue.decEqList : (a b : List JSValue) → Decidable (a = b)
  | [], [] => isTrue rfl
  | [], _ :: _ => isFalse (fun e => List.noConfusion e)
  | _ :: _, [] => isFalse (fun e => List.noConfusion e)
  | x :: xs, y :: ys =>
    match JSValue.decEq x y, JSValue.decEqList xs ys with
    | isTrue h1, isTrue h2 => isTrue (by rw [h1, h2])
    | isFalse h, _ => isFalse (fun e => h (List.cons.inj e).1)
    | _, isFalse h => isFalse (fun e => h (List.cons.inj e).2)
end

instance : DecidableEq JSValue := JSValue.decEq

/-- The decimal digits of `n`, most significant first, put in front of `acc`;
the first argument bounds the number of digits. -/
def decimalDigits : Nat → Nat → JSString → JSString
  | 0, _, acc => acc
  | fuel + 1, n, acc =>
    if n < 10 then (48 + n) :: acc
    else decimalDigits fuel (n / 10) ((48 + n % 10) :: acc)

/-- The decimal numeral of a natural number. -/
def decimal (n : Nat) : JSString := decimalDigits (n + 1) n []

/-- The string of a number (`Number::toString` in radix 10). -/
def JSNumber.render : JSNumber → JSString
  | .int negative magnitude =>
    if magnitude.val = 0 then lit "0"
    else (if negative then lit "-" else []) ++ decimal magnitude.val
  | .nan => lit "NaN"
  | .infinity negative => (if negative then lit "-" else []) ++ lit "Infinity"
  | .float rendered => rendered

/-- ToBoolean: what `!x`, `if (x)` and `x || y` test. -/
def JSValue.truthy : JSValue → Bool
  | .undefined => false
  | .null => false
  | .boolean b => b
  | .number (.int _ magnitude) => magnitude.val != 0
  | .number .nan => false
  | .number (.infinity _) => true
  | .number (.float _) => true
  | .bigint n => n != 0
  | .string s => !s.isEmpty
  | .symbol _ => true
  | .array _ => true
  | .object => true
  | .exotic _ => true

/-- The operator `a || b`. -/
def JSValue.or (a b : JSValue) : JSValue :=
  if a.truthy then a else b

/-- The result of `typeof x === 'string'`. -/
def JSValue.isString : JSValue → Bool
  | .string _ => true
  | _ => false

mutual
/-- The coercion ToString, which a template literal applies; `none` means that
it raises (on a symbol, or on an object whose own coercion raises). -/
def JSValue.toStringJS : JSValue → Option JSString
  | .undefined => some (lit "undefined")
  | .null => some (lit "null")
  | .boolean b => some (if b then lit "true" else lit "false")
  | .number x => some x.render
  | .bigint n => some ((if n < 0 then lit "-" else []) ++ decimal n.natAbs)
  | .string s => some s
  | .symbol _ => none
  | .array items => JSValue.joinItems items
  | .object => some (lit "[object Object]")
  | .exotic coerced => coerced
/-- The method `Array.prototype.join` with the separator `","`: `undefined` and
`null` elements give the empty string, the others their ToString. -/
def JSValue.joinItems : List JSValue → Option JSString
  | [] => some []
  | v :: rest =>
    let first : Option JSString :=
      match v with
      | .undefined => some []
      | .null => some []
      | _ => JSValue.toStringJS v
    match rest with
    | [] => first
    | _ :: _ =>
      match first, JSValue.joinItems rest with
      | some a, some b => some (a ++ lit "," ++ b)
      | _, _ => none
end

/-- The call `String(x)`: the descriptive string of a symbol, ToString of any
other value. -/
def JSValue.stringCall : JSValue → Option JSString
  | .symbol description => some (lit "Symbol(" ++ description ++ lit ")")
  | v => v.toStringJS

/-- The string that an element contributes to the join of an array. -/
def elementString (v : JSValue) : Option JSString :=
  if v = .undefined ∨ v = .null then some [] else v.toStringJS

/-! ## Hex validation (`isValidHexString`, lines 163-184) -/

/-- The character class `[0-9a-fA-F]` on a code unit. -/
def inHexClass (u : Nat) : Bool :=
  (48 ≤ u && u ≤ 57) || (97 ≤ u && u ≤ 102) || (65 ≤ u && u ≤ 70)

/-- The test `/^[0-9a-fA-F]*$/.test(s)`: from the start the greedy star consumes
the class, and what is left must be the end of the input. -/
def hexRegexTest (s : JSString) : Bool :=
  (s.dropWhile inHexClass).isEmpty

/-- The function `isValidHexString(hex)`. -/
def isValidHexString (hex : JSValue) : Bool :=
  if !hex.truthy || !hex.isString then false
  else match hex with
    | .string s =>
      if !hexRegexTest s then false
      else if s.length % 2 != 0 then false
      else if s.length < 100 then false
      else true
    | _ => false

/-! ## Hex to bytes (`hexToBytes`, lines 189-202) -/

/-- Values that can be thrown and caught. -/
inductive ErrorKind where
  | generic : ErrorKind
  | typeError : ErrorKind
  | abortError : ErrorKind
  | syntaxError : ErrorKind
  deriving DecidableEq

/-- A thrown value: an `APIError` (lines 31-38), another `Error` instance, or
any other value. -/
inductive Thrown where
  | apiError (message : JSString) (status : Int) (details : JSValue) : Thrown
  | error (kind : ErrorKind) (message : JSString) : Thrown
  | value (v : JSValue) : Thrown
  deriving DecidableEq

/-- The constructor `new APIError(message, status, details = '')`: the default
replaces an `undefined` argument, and any other value is stored as it is. -/
def newAPIError (message : JSString) (status : Int) (details : JSValue) : Thrown :=
  .apiError message status (match details with
    | .undefined => .string []
    | d => d)

/-- The property `error.message` (`none` is `undefined`). -/
def Thrown.message : Thrown → Option JSString
  | .apiError m _ _ => some m
  | .error _ m => some m
  | .value _ => none

/-- The property `error.message` as a value. -/
def Thrown.messageValue (e : Thrown) : JSValue :=
  match e.message with
  | some m => .string m
  | none => .undefined

/-- The property `error.status` (`none` is `undefined`). -/
def Thrown.status : Thrown → Option Int
  | .apiError _ s _ => some s
  | .error _ _ => none
  | .value _ => none

/-- Line terminators, which `.` does not match. -/
def isLineTerminator (u : Nat) : Bool :=
  u == 10 || u == 13 || u == 0x2028 || u == 0x2029

/-- The matches of `s.match(/.{1,2}/g)`, left to right: at each position the
greedy `.{1,2}` takes two code units when it can, one otherwise, and a line
terminator is skipped. -/
def matchPairs : JSString → List JSString
  | [] => []
  | a :: rest =>
    if isLineTerminator a then matchPairs rest
    else match rest with
      | [] => [[a]]
      | b :: rest2 =>
        if isLineTerminator b then [a] :: matchPairs rest2
        else [a, b] :: matchPairs rest2

/-- The value `s.match(/.{1,2}/g)`: `null` (here `none`) when nothing matches. -/
def matchAll (s : JSString) : Option (List JSString) :=
  let ms := matchPairs s
  if ms.isEmpty then none else some ms

/-- White space and line terminators, which `parseInt` skips at the start. -/
def isStrWhiteSpace (u : Nat) : Bool :=
  u == 9 || u == 10 || u == 11 || u == 12 || u == 13 || u == 32 || u == 160 ||
  u == 0x1680 || (0x2000 ≤ u && u ≤ 0x200A) || u == 0x2028 || u == 0x2029 ||
  u == 0x202F || u == 0x205F || u == 0x3000 || u == 0xFEFF

/-- The value of a code unit as a digit in radix 16, when it is one. -/
def radix16Digit (u : Nat) : Option Nat :=
  if 48 ≤ u && u ≤ 57 then some (u - 48)
  else if 97 ≤ u && u ≤ 102 then some (u - 87)
  else if 65 ≤ u && u ≤ 70 then some (u - 55)
  else none

/-- The longest prefix of radix-16 digits, accumulated left to right; the
second component tells whether any digit was read. -/
def readDigits16 : JSString → Nat → Bool → Nat × Bool
  | [], acc, seen => (acc, seen)
  | u :: rest, acc, seen =>
    match radix16Digit u with
    | some d => readDigits16 rest (16 * acc + d) true
    | none => (acc, seen)

/-- The removal of a leading `0x` or `0X`, which `parseInt` does in radix 16. -/
def stripHexPrefix (s : JSString) : JSString :=
  match s with
  | 48 :: x :: rest => if x == 120 || x == 88 then rest else s
  | _ => s

/-- The call `parseInt(s, 16)`; `none` is `NaN`. -/
def parseInt16 (s : JSString) : Option Int :=
  let s1 := s.dropWhile isStrWhiteSpace
  let negative := s1.head? == some 45
  let s2 := if s1.head? == some 43 || s1.head? == some 45 then s1.tail else s1
  let s3 := stripHexPrefix s2
  match readDigits16 s3 0 false with
  | (_, false) => none
  | (n, true) => some (if negative then - (n : Int) else (n : Int))

/-- The conversion of a number to an element of a `Uint8Array`. -/
def toUint8 : Option Int → Nat
  | none => 0
  | some i => (i % 256).toNat

/-- The function `hexToBytes(hex)`. -/
def hexToBytes (hex : JSValue) : Except Thrown (List Nat) :=
  if !isValidHexString hex then
    .error (.error .generic (lit "Invalid hex string"))
  else
    let matched : Except Thrown (List JSString) :=
      match hex with
      | .string s =>
        match matchAll s with
        | some ms => .ok ms
        | none => .error (.error .typeError (lit "Cannot read properties of null"))
      | _ => .error (.error .typeError (lit "hex.match is not a function"))
    match matched with
    | .ok ms => .ok (ms.map (fun b => toUint8 (parseInt16 b)))
    | .error e =>
      .error (.error .generic (lit "Failed to convert hex to bytes: " ++ (e.message.getD (lit "undefined"))))

/-- The case-insensitive base-16 value of a hexadecimal digit, by table. -/
def hexValue : Nat → Nat
  | 48 => 0 | 49 => 1 | 50 => 2 | 51 => 3 | 52 => 4
  | 53 => 5 | 54 => 6 | 55 => 7 | 56 => 8 | 57 => 9
  | 97 => 10 | 98 => 11 | 99 => 12 | 100 => 13 | 101 => 14 | 102 => 15
  | 65 => 10 | 66 => 11 | 67 => 12 | 68 => 13 | 69 => 14 | 70 => 15
  | _ => 0

/-- A bytes-to-hex encoding with two hexadecimal digits per byte, in lower or
upper case. -/
def hexDigitOf (upper : Bool) (d : Nat) : Nat :=
  if d < 10 then 48 + d else if upper then 55 + d else 87 + d

/-- The encoding of a byte sequence, high digit first. -/
def bytesToHex (upper : Bool) : List Nat → JSString
  | [] => []
  | b :: rest => hexDigitOf upper (b / 16) :: hexDigitOf upper (b % 16) :: bytesToHex upper rest

/-- Membership in the class `[0-9a-fA-F]`, as ranges of code units. -/
def IsHexDigit (u : Nat) : Prop :=
  (48 ≤ u ∧ u ≤ 57) ∨ (97 ≤ u ∧ u ≤ 102) ∨ (65 ≤ u ∧ u ≤ 70)

/-- The bytes that a string of digit pairs denotes, pair by pair. -/
def pairValues : JSString → List Nat
  | a :: b :: rest => (16 * hexValue a + hexValue b) :: pairValues rest
  | _ => []

/-- A sample payload: the fifty bytes 100, 101, ..., 149. -/
def sampleBytes : List Nat := List.range' 100 50

/-- The lower-case encoding of the sample payload. -/
def sampleHex : JSString := bytesToHex false sampleBytes

/-! ## Configuration (`API_CONFIG`, lines 9-18) -/

/-- The field `API_CONFIG.BASE_URL`. -/
def BASE_URL : JSString := lit "http://localhost:8000"

/-- The field `API_CONFIG.TIMEOUT`, in milliseconds. -/
def TIMEOUT : Nat := 60000

/-- The field `API_CONFIG.RETRY_ATTEMPTS`. -/
def RETRY_ATTEMPTS : Nat := 3

/-- The field `API_CONFIG.RETRY_DELAY`, in milliseconds. -/
def RETRY_DELAY : Nat := 1000

/-! ## Fetch with timeout (`fetchWithTimeout`, lines 43-95) -/

/-- The fields of a parsed JSON body that the module reads, each any JSON value
(`undefined` is an absent field). -/
structure Body where
  detail : JSValue
  message : JSValue
  deriving DecidableEq

/-- An HTTP response: `ok`, `status`, and the outcome of `response.json()`. -/
structure Response where
  ok : Bool
  status : Int
  json : Except Thrown Body
  deriving DecidableEq

/-- The operator `a || b` on strings that may be `undefined`: `a` when it is
truthy. -/
def orElse (a : Option JSString) (b : Option JSString) : Option JSString :=
  match a with
  | some x => if x.isEmpty then b else some x
  | none => b

/-- The `try` block of `fetchWithTimeout`, given the outcome of the `fetch` call
(a response, or the value it rejected with; the deadline firing first makes it
reject with an `AbortError`). -/
def fetchTryBlock (outcome : Except Thrown Response) : Except Thrown Response :=
  match outcome with
  | .error e => .error e
  | .ok response =>
    if !response.ok then
      let errorMessage := lit "HTTP " ++ lit (toString response.status)
      let details : JSValue :=
        match response.json with
        | .ok errorData => (errorData.detail.or errorData.message).or (.string [])
        | .error _ => .string []
      .error (newAPIError errorMessage response.status details)
    else .ok response

/-- The `catch` block of `fetchWithTimeout`: the value that it throws. -/
def fetchCatchBlock (timeout : Nat) (error : Thrown) : Thrown :=
  match error with
  | .error .abortError _ =>
    newAPIError (lit "Request timeout") 408
      (.string (lit "Request took longer than " ++ lit (toString timeout) ++
        lit "ms. Check if backend is running."))
  | .apiError m s d => .apiError m s d
  | .error .typeError _ =>
    newAPIError (lit "Network error") 0
      (.string (lit "Cannot reach backend. Make sure API is running on " ++ BASE_URL))
  | .value .undefined => .error .typeError (lit "Cannot read properties of undefined")
  | .value .null => .error .typeError (lit "Cannot read properties of null")
  | other => other

/-- The function `fetchWithTimeout(url, options, timeout)` on the outcome of its
`fetch` call. -/
def fetchWithTimeout (outcome : Except Thrown Response) (timeout : Nat) :
    Except Thrown Response :=
  match fetchTryBlock outcome with
  | .ok response => .ok response
  | .error e => .error (fetchCatchBlock timeout e)

/-! ## Retry logic (`fetchWithRetry`, lines 100-125) -/

/-- The observable effects of a submission, in order. -/
inductive Event where
  | formData : Event
  | attempt (k : Nat) : Event
  | warn (k : Nat) (retries : Nat) (message : Option JSString) : Event
  | sleep (ms : Nat) : Event
  deriving DecidableEq

/-- The test `error.status >= 400 && error.status < 500` (false when the status
is `undefined`). -/
def isClientError (error : Thrown) : Bool :=
  match error.status with
  | some s => decide (400 ≤ s) && decide (s < 500)
  | none => false

/-- The `for` loop of `fetchWithRetry`, from the iteration with counter
`attempt`; `call k` is the outcome of the `k`-th call of `fetchWithTimeout`.
The first argument bounds the number of iterations; `none` means the bound was
reached. -/
def retryLoop (call : Nat → Except Thrown Response) (retries : Nat) :
    Nat → Nat → Thrown → List Event → Option (List Event × Except Thrown Response)
  | 0, _, _, _ => none
  | fuel + 1, attempt, lastError, trace =>
    if attempt ≤ retries then
      match call attempt with
      | .ok response => some (trace ++ [.attempt attempt], .ok response)
      | .error error =>
        let trace1 := trace ++ [.attempt attempt, .warn attempt retries error.message]
        if isClientError error then some (trace1, .error error)
        else
          let trace2 := if attempt < retries then trace1 ++ [.sleep (RETRY_DELAY * attempt)] else trace1
          retryLoop call retries fuel (attempt + 1) error trace2
    else some (trace, .error lastError)

/-- The function `fetchWithRetry(url, options, retries)`: the loop from
`attempt = 1` with `lastError` undefined. -/
def fetchWithRetry (call : Nat → Except Thrown Response) (retries : Nat) :
    Option (List Event × Except Thrown Response) :=
  retryLoop call retries (retries + 1) 1 (.value .undefined) []

/-- The number of attempts in a trace. -/
def attempts (trace : List Event) : Nat :=
  (trace.filter (fun e => match e with | .attempt _ => true | _ => false)).length

/-- The backoff delays in a trace, in order. -/
def delays : List Event → List Nat
  | [] => []
  | .sleep ms :: rest => ms :: delays rest
  | _ :: rest => delays rest

/-- The events of the failed attempts `a, a+1, ..., a+d-1` within a budget of
`retries`, attempt `k` failing with `errs k`: the attempt, its warning, and the
backoff delay `RETRY_DELAY * k` when attempts remain. -/
def failedRun (retries : Nat) (errs : Nat → Thrown) : Nat → Nat → List Event
  | _, 0 => []
  | a, d + 1 =>
    ([Event.attempt a, Event.warn a retries (errs a).message] ++
      (if a < retries then [Event.sleep (RETRY_DELAY * a)] else [])) ++
    failedRun retries errs (a + 1) d

/-! ## Voice submission (`sendVoiceToAPI`, lines 130-158) -/

/-- An audio payload: its `size`. -/
structure Blob where
  size : Nat
  deriving DecidableEq

/-- The function `sendVoiceToAPI(audioBlob)`; `net k` is the outcome of the
`fetch` call of attempt `k`, and `none` is a null or undefined payload. -/
def sendVoiceToAPI (audioBlob : Option Blob) (net : Nat → Except Thrown Response) :
    Option (List Event × Except Thrown Body) :=
  let empty : Bool := match audioBlob with
    | none => true
    | some b => b.size == 0
  if empty then
    some ([], .error (newAPIError (lit "Empty audio") 400 (.string (lit "No audio data to send"))))
  else
    match fetchWithRetry (fun k => fetchWithTimeout (net k) TIMEOUT) RETRY_ATTEMPTS with
    | none => none
    | some (trace, result) =>
      let tried : Except Thrown Body :=
        match result with
        | .ok response => response.json
        | .error e => .error e
      let final : Except Thrown Body :=
        match tried with
        | .ok data => .ok data
        | .error (.apiError m s d) => .error (.apiError m s d)
        | .error e => .error (newAPIError (lit "Failed to process voice") 500 e.messageValue)
      some (Event.formData :: trace, final)

/-! ## Playback (`playAudioFromHex`, lines 207-249) -/

/-- The terminal events of a playback: the `ended` event, the `error` event
(with `audio.error?.message`), and the rejection of `audio.play()`. -/
inductive PlaybackEvent where
  | ended : PlaybackEvent
  | error (message : Option JSString) : PlaybackEvent
  | playRejected (reason : Thrown) : PlaybackEvent
  deriving DecidableEq

/-- What a playback has done so far: the calls of `URL.createObjectURL`, the
calls of `URL.revokeObjectURL` on the created URL, the state of the returned
promise, and the errors handed to `onError`. -/
structure Playback where
  created : Nat
  revoked : Nat
  settled : Option (Except Thrown Unit)
  reported : List Thrown
  deriving DecidableEq

/-- Resolve or reject the promise: only the first settlement counts. -/
def settle (p : Playback) (r : Except Thrown Unit) : Playback :=
  match p.settled with
  | some _ => p
  | none => { p with settled := some r }

/-- Call `onError(error)` when a callback was supplied. -/
def report (hasOnError : Bool) (p : Playback) (error : Thrown) : Playback :=
  if hasOnError then { p with reported := p.reported ++ [error] } else p

/-- The handlers `audio.onended`, `audio.onerror` and the `catch` of
`audio.play()`. -/
def handle (hasOnError : Bool) (p : Playback) : PlaybackEvent → Playback
  | .ended =>
    let p1 := { p with revoked := p.revoked + 1 }
    settle p1 (.ok ())
  | .error message =>
    let p1 := { p with revoked := p.revoked + 1 }
    let error := Thrown.error .generic
      (lit "Audio playback failed: " ++ (orElse message (some (lit "Unknown error"))).getD [])
    let p2 := report hasOnError p1 error
    settle p2 (.error error)
  | .playRejected reason =>
    let p1 := { p with revoked := p.revoked + 1 }
    let p2 := report hasOnError p1 reason
    settle p2 (.error reason)

/-- The function `playAudioFromHex(hex, onError)` followed by the delivery of
the given events to the handlers it installed. -/
def playAudioFromHex (hex : JSValue) (hasOnError : Bool) (events : List PlaybackEvent) :
    Playback :=
  let start : Playback := { created := 0, revoked := 0, settled := none, reported := [] }
  let prepared : Except Thrown (List Nat) :=
    if !isValidHexString hex then .error (.error .generic (lit "Invalid or empty audio data"))
    else hexToBytes hex
  match prepared with
  | .error error => settle (report hasOnError start error) (.error error)
  | .ok _ => events.foldl (handle hasOnError) { start with created := 1 }

/-! ## Error formatting (`formatErrorMessage`, lines 280-293) -/

/-- The function `formatErrorMessage(error)`; `none` means that it raises,
which happens when a string coercion in it raises. -/
def formatErrorMessage (error : Thrown) : Option JSString :=
  match error with
  | .apiError message _ details =>
    if details.truthy then
      match details.toStringJS with
      | some d => some (message ++ lit ": " ++ d)
      | none => none
    else some message
  | .error _ message => some message
  | .value v => v.stringCall

/-! ## Recording counter (lines 298-308) -/

/-- The module state: `recordingCount`. -/
structure Recorder where
  recordingCount : Nat
  deriving DecidableEq

/-- The state when the module is loaded: `let recordingCount = 0`. -/
def Recorder.initial : Recorder := { recordingCount := 0 }

/-- The expression `iso.replace(/[:.]/g, '-').substring(0, 19)`. -/
def timestampOf (iso : JSString) : JSString :=
  (iso.map (fun u => if u == 58 || u == 46 then 45 else u)).take 19

/-- The function `getRecordingFileName(agentName = 'recording')`; `iso` is the
value of `new Date().toISOString()` at the call. -/
def getRecordingFileName (agentName : Option JSString) (iso : JSString) (st : Recorder) :
    JSString × Recorder :=
  let name := agentName.getD (lit "recording")
  let st1 : Recorder := { recordingCount := st.recordingCount + 1 }
  (name ++ lit "_" ++ lit (toString st1.recordingCount) ++ lit "_" ++ timestampOf iso ++ lit ".wav",
    st1)

/-- The function `resetRecordingCounter()`. -/
def resetRecordingCounter (_st : Recorder) : Recorder :=
  { recordingCount := 0 }

/-- A sequence of calls of `getRecordingFileName`, one per `(agentName, iso)`:
the names returned and the final state. -/
def generateNames : List (Option JSString × JSString) → Recorder → List JSString × Recorder
  | [], st => ([], st)
  | (agentName, iso) :: rest, st =>
    let r := getRecordingFileName agentName iso st
    let rs := generateNames rest r.2
    (r.1 :: rs.1, rs.2)

/-- The name that carries the counter value `k`. -/
def nameWith (agentName : Option JSString) (k : Nat) (iso : JSString) : JSString :=
  agentName.getD (lit "recording") ++ lit "_" ++ lit (toString k) ++ lit "_" ++
    timestampOf iso ++ lit ".wav"

/-! ## Sample inputs -/

/-- An error whose status lies outside `[400, 500)`: HTTP 503. -/
def serverError : Thrown := .apiError (lit "HTTP 503") 503 (.string [])

/-- A client error: HTTP 422. -/
def clientError : Thrown := .apiError (lit "HTTP 422") 422 (.string [])

/-- A successful response with a JSON body. -/
def okResponse : Response :=
  { ok := true, status := 200, json := .ok { detail := .undefined, message := .string (lit "hello") } }

/-- Every attempt fails with HTTP 503. -/
def alwaysFailing : Nat → Except Thrown Response := fun _ => .error serverError

/-- The first attempt fails with HTTP 503 and the later ones succeed. -/
def failingOnce : Nat → Except Thrown Response :=
  fun k => if k ≤ 1 then .error serverError else .ok okResponse

/-- The first attempt fails with HTTP 422 and the later ones would succeed. -/
def rejectedOnce : Nat → Except Thrown Response :=
  fun k => if k ≤ 1 then .error clientError else .ok okResponse

/-- The network on which the first `fetch` is aborted by the deadline and the
later ones succeed. -/
def timeoutThenOk : Nat → Except Thrown Response :=
  fun k => if k ≤ 1 then .error (.error .abortError (lit "The user aborted a request."))
    else .ok okResponse

/-- The error that `fetchWithTimeout` raises on a timeout of `timeout` ms. -/
def timeoutError (timeout : Nat) : Thrown :=
  .apiError (lit "Request timeout") 408
    (.string (lit "Request took longer than " ++ lit (toString timeout) ++
      lit "ms. Check if backend is running."))

/-- An HTTP 422 response whose JSON body is `{"detail": []}`. -/
def emptyDetailResponse : Response :=
  { ok := false, status := 422, json := .ok { detail := .array [], message := .undefined } }

/-- The elements of the array `[1, null, "a"]`. -/
def thrownItems : List JSValue :=
  [.number (.int false ⟨1, by decide⟩), .null, .string (lit "a")]

/-- The number `-9007199254740991`, the least integer of the `int` range. -/
def minSafeInteger : JSNumber := .int true ⟨9007199254740991, by decide⟩

/-- The number zero with either sign. -/
def zero (negative : Bool) : JSNumber := .int negative ⟨0, by decide⟩

/-- The values that ToBoolean sends to `false`. -/
def IsFalsy (v : JSValue) : Prop :=
  v = .undefined ∨ v = .null ∨ v = .boolean false ∨ v = .number (zero false) ∨
    v = .number (zero true) ∨ v = .number .nan ∨ v = .bigint 0 ∨ v = .string []

/-- The decimal numeral that Mathlib's `Nat.digits` gives, most significant
digit first, as code units. -/
def numeral (n : Nat) : JSString :=
  if n = 0 then [48] else (Nat.digits 10 n).reverse.map (fun d => 48 + d)

/-! ## Hex validation and decoding: proofs -/

theorem inHexClass_iff (u : Nat) : inHexClass u = true ↔ IsHexDigit u := by
  simp [inHexClass, IsHexDigit, or_assoc]

theorem hexRegexTest_iff (s : JSString) :
    hexRegexTest s = true ↔ ∀ u ∈ s, IsHexDigit u := by
  unfold hexRegexTest
  rw [List.isEmpty_iff, List.dropWhile_eq_nil_iff]
  constructor
  · intro h u hu
    exact (inHexClass_iff u).1 (h u hu)
  · intro h u hu
    exact (inHexClass_iff u).2 (h u hu)

theorem isValidHexString_string (s : JSString) :
    isValidHexString (.string s) = true ↔
      s ≠ [] ∧ (∀ u ∈ s, IsHexDigit u) ∧ s.length % 2 = 0 ∧ 100 ≤ s.length := by
  rw [← hexRegexTest_iff]
  cases s with
  | nil => simp [isValidHexString, JSValue.truthy]
  | cons a t =>
    simp only [isValidHexString, JSValue.truthy, JSValue.isString]
    cases hexRegexTest (a :: t) <;> simp


theorem hex_unit_facts (u : Nat) (h : inHexClass u = true) :
    isLineTerminator u = false ∧ isStrWhiteSpace u = false ∧ u ≠ 43 ∧ u ≠ 45 ∧
      u ≠ 120 ∧ u ≠ 88 ∧ radix16Digit u = some (hexValue u) ∧ hexValue u < 16 := by
  have hu : u ≤ 102 := by
    simp [inHexClass] at h
    omega
  revert h
  interval_cases u <;> decide

theorem parseInt16_pair (a b : Nat) (ha : inHexClass a = true) (hb : inHexClass b = true) :
    parseInt16 [a, b] = some ((16 * hexValue a + hexValue b : Nat) : Int) := by
  obtain ⟨-, wa, pa, ma, -, -, da, -⟩ := hex_unit_facts a ha
  obtain ⟨-, -, -, -, xb, Xb, db, -⟩ := hex_unit_facts b hb
  have h3 : stripHexPrefix [a, b] = [a, b] := by
    unfold stripHexPrefix
    split
    · rename_i x rest heq
      simp only [List.cons.injEq] at heq
      obtain ⟨-, hx, -⟩ := heq
      subst hx
      simp [xb, Xb]
    · rfl
  simp only [parseInt16, List.dropWhile, wa, List.head?, List.tail]
  simp [pa, ma, h3, readDigits16, da, db]

theorem toUint8_byte (n : Nat) (h : n < 256) : toUint8 (some (n : Int)) = n := by
  simp only [toUint8]
  omega

theorem pairValues_le (s : JSString) (h : ∀ u ∈ s, inHexClass u = true) :
    ∀ b ∈ pairValues s, b ≤ 255 := by
  induction s using pairValues.induct with
  | case1 a b rest ih =>
    intro x hx
    simp only [pairValues, List.mem_cons] at hx
    rcases hx with hx | hx
    · have h1 := (hex_unit_facts a (h a (by simp))).2.2.2.2.2.2.2
      have h2 := (hex_unit_facts b (h b (by simp))).2.2.2.2.2.2.2
      omega
    · exact ih (fun u hu => h u (by simp [hu])) x hx
  | case2 s hs =>
    intro x hx
    rw [pairValues] at hx
    · cases hx
    · exact hs

theorem pairValues_length (s : JSString) : (pairValues s).length = s.length / 2 := by
  induction s using pairValues.induct with
  | case1 a b rest ih =>
    simp only [pairValues, List.length_cons, ih]
    omega
  | case2 s hs =>
    rw [pairValues]
    · match s, hs with
      | [], _ => rfl
      | [_], _ => simp
      | a :: b :: rest, hs => exact absurd rfl (hs a b rest)
    · exact hs

theorem pairValues_get (s : JSString) :
    ∀ i, i < s.length / 2 →
      (pairValues s)[i]? = some (16 * hexValue (s.getD (2 * i) 0) + hexValue (s.getD (2 * i + 1) 0)) := by
  induction s using pairValues.induct with
  | case1 a b rest ih =>
    intro i hi
    cases i with
    | zero => simp [pairValues]
    | succ j =>
      have hj : j < rest.length / 2 := by
        simp only [List.length_cons] at hi
        omega
      have e1 : 2 * (j + 1) = (2 * j + 1) + 1 := by omega
      have e2 : 2 * (j + 1) + 1 = ((2 * j + 1) + 1) + 1 := by omega
      rw [e1] at *
      simp only [pairValues, List.getElem?_cons_succ, List.getD_cons_succ]
      exact ih j hj
  | case2 s hs =>
    intro i hi
    match s, hs with
    | [], _ => simp at hi
    | [_], _ =>
      simp only [List.length_singleton] at hi
      omega
    | a :: b :: rest, hs => exact absurd rfl (hs a b rest)

theorem matchPairs_decode (s : JSString) (h : ∀ u ∈ s, inHexClass u = true)
    (heven : s.length % 2 = 0) :
    (matchPairs s).map (fun b => toUint8 (parseInt16 b)) = pairValues s := by
  induction s using pairValues.induct with
  | case1 a b rest ih =>
    have ha := h a (by simp)
    have hb := h b (by simp)
    have la := (hex_unit_facts a ha).1
    have lb := (hex_unit_facts b hb).1
    have va := (hex_unit_facts a ha).2.2.2.2.2.2.2
    have vb := (hex_unit_facts b hb).2.2.2.2.2.2.2
    have hrest : rest.length % 2 = 0 := by
      simp only [List.length_cons] at heven
      omega
    simp only [matchPairs, la, lb, Bool.false_eq_true, if_false, List.map_cons, pairValues]
    rw [parseInt16_pair a b ha hb, toUint8_byte _ (by omega),
      ih (fun u hu => h u (by simp [hu])) hrest]
  | case2 s hs =>
    match s, hs with
    | [], _ => rfl
    | [_], _ => simp at heven
    | a :: b :: rest, hs => exact absurd rfl (hs a b rest)

theorem hexToBytes_of_valid (s : JSString) (h : isValidHexString (.string s) = true) :
    hexToBytes (.string s) = .ok (pairValues s) := by
  obtain ⟨-, hall, heven, hlen⟩ := (isValidHexString_string s).1 h
  have hcls : ∀ u ∈ s, inHexClass u = true := fun u hu => (inHexClass_iff u).2 (hall u hu)
  have hdec := matchPairs_decode s hcls heven
  have hne : (matchPairs s).isEmpty = false := by
    cases hm : matchPairs s with
    | nil =>
      rw [hm] at hdec
      have hl := pairValues_length s
      rw [← hdec] at hl
      simp at hl
      omega
    | cons _ _ => rfl
  simp only [hexToBytes, h, matchAll, hne]
  simp [hdec]

theorem hexDigitOf_facts (upper : Bool) (d : Nat) (h : d < 16) :
    inHexClass (hexDigitOf upper d) = true ∧ hexValue (hexDigitOf upper d) = d := by
  revert upper
  interval_cases d <;> decide

theorem bytesToHex_length (upper : Bool) (bs : List Nat) :
    (bytesToHex upper bs).length = 2 * bs.length := by
  induction bs with
  | nil => rfl
  | cons b rest ih =>
    simp only [bytesToHex, List.length_cons, ih]
    omega

theorem bytesToHex_class (upper : Bool) (bs : List Nat) (h : ∀ b ∈ bs, b < 256) :
    ∀ u ∈ bytesToHex upper bs, inHexClass u = true := by
  induction bs with
  | nil => simp [bytesToHex]
  | cons b rest ih =>
    have hb : b < 256 := h b (by simp)
    intro u hu
    simp only [bytesToHex, List.mem_cons] at hu
    rcases hu with hu | hu | hu
    · rw [hu]
      exact (hexDigitOf_facts upper (b / 16) (by omega)).1
    · rw [hu]
      exact (hexDigitOf_facts upper (b % 16) (by omega)).1
    · exact ih (fun x hx => h x (by simp [hx])) u hu

theorem pairValues_bytesToHex (upper : Bool) (bs : List Nat) (h : ∀ b ∈ bs, b < 256) :
    pairValues (bytesToHex upper bs) = bs := by
  induction bs with
  | nil => rfl
  | cons b rest ih =>
    have hb : b < 256 := h b (by simp)
    simp only [bytesToHex, pairValues]
    rw [(hexDigitOf_facts upper (b / 16) (by omega)).2,
      (hexDigitOf_facts upper (b % 16) (by omega)).2,
      ih (fun x hx => h x (by simp [hx]))]
    congr 1
    omega

theorem isValidHexString_bytesToHex (upper : Bool) (bs : List Nat) (h : ∀ b ∈ bs, b < 256)
    (hlen : 50 ≤ bs.length) : isValidHexString (.string (bytesToHex upper bs)) = true := by
  rw [isValidHexString_string]
  have hl := bytesToHex_length upper bs
  refine ⟨?_, ?_, ?_, ?_⟩
  · intro hnil
    rw [hnil] at hl
    simp only [List.length_nil] at hl
    omega
  · intro u hu
    exact (inHexClass_iff u).1 (bytesToHex_class upper bs h u hu)
  · omega
  · omega

/-! ## Hex validation and decoding: the claims -/

/-- C1: `isValidHexString x` is true exactly when `x` is a string that is
non-empty, made only of characters of `[0-9a-fA-F]`, of even length and of
length at least 100; for every other value it is false (the function is total:
it never raises). -/
theorem C1_isValidHexString_iff (x : JSValue) :
    (isValidHexString x = true ↔
      ∃ s, x = .string s ∧ s ≠ [] ∧ (∀ u ∈ s, IsHexDigit u) ∧
        s.length % 2 = 0 ∧ 100 ≤ s.length) ∧
    ((¬ ∃ s, x = .string s ∧ s ≠ [] ∧ (∀ u ∈ s, IsHexDigit u) ∧
        s.length % 2 = 0 ∧ 100 ≤ s.length) → isValidHexString x = false) := by
  have key : isValidHexString x = true ↔
      ∃ s, x = .string s ∧ s ≠ [] ∧ (∀ u ∈ s, IsHexDigit u) ∧
        s.length % 2 = 0 ∧ 100 ≤ s.length := by
    cases x with
    | string s =>
      rw [isValidHexString_string]
      constructor
      · intro h
        exact ⟨s, rfl, h⟩
      · rintro ⟨t, ht, h⟩
        cases ht
        exact h
    | boolean b => cases b <;> simp [isValidHexString, JSValue.truthy, JSValue.isString]
    | _ => simp [isValidHexString, JSValue.truthy, JSValue.isString]
  refine ⟨key, fun hno => ?_⟩
  cases hv : isValidHexString x with
  | false => rfl
  | true => exact absurd (key.1 hv) hno

/-- C2: for every string that satisfies `isValidHexString`, `hexToBytes` returns
(does not raise) a byte sequence of length `hex.length / 2` whose `i`-th byte is
`16 * v(hex[2i]) + v(hex[2i+1])`, and every byte is in `0..255`. -/
theorem C2_hexToBytes_valid (s : JSString) (h : isValidHexString (.string s) = true) :
    ∃ bytes, hexToBytes (.string s) = .ok bytes ∧ bytes.length = s.length / 2 ∧
      (∀ i, i < s.length / 2 →
        bytes[i]? = some (16 * hexValue (s.getD (2 * i) 0) + hexValue (s.getD (2 * i + 1) 0))) ∧
      ∀ b ∈ bytes, b ≤ 255 := by
  obtain ⟨-, hall, -, -⟩ := (isValidHexString_string s).1 h
  exact ⟨pairValues s, hexToBytes_of_valid s h, pairValues_length s, pairValues_get s,
    pairValues_le s (fun u hu => (inHexClass_iff u).2 (hall u hu))⟩

set_option maxRecDepth 100000 in
/-- C2 at the sample payload, a valid string of 100 hexadecimal digits. -/
theorem C2_hexToBytes_valid_witness :
    isValidHexString (.string sampleHex) = true ∧
    ∃ bytes, hexToBytes (.string sampleHex) = .ok bytes ∧ bytes.length = sampleHex.length / 2 ∧
      (∀ i, i < sampleHex.length / 2 →
        bytes[i]? = some (16 * hexValue (sampleHex.getD (2 * i) 0) +
          hexValue (sampleHex.getD (2 * i + 1) 0))) ∧
      ∀ b ∈ bytes, b ≤ 255 :=
  ⟨by decide, C2_hexToBytes_valid sampleHex (by decide)⟩

/-- C3, the claim as stated fails: `"00ff"` is the encoding of the bytes
`[0, 255]`, and `hexToBytes("00ff")` does not return them: it raises
`Error('Invalid hex string')`, the string being shorter than 100 characters. -/
theorem C3_hexToBytes_00ff_raises :
    bytesToHex false [0, 255] = lit "00ff" ∧
    hexToBytes (.string (lit "00ff")) ≠ .ok [0, 255] ∧
    hexToBytes (.string (bytesToHex false [0, 255])) =
      .error (.error .generic (lit "Invalid hex string")) := by
  decide

/-- C3 as amended: `hexToBytes` is a left inverse of the two-digits-per-byte
encoding (in either case) on the byte sequences of at least 50 bytes, and on a
shorter one, whose encoding has fewer than 100 characters, it raises
`Error('Invalid hex string')`. -/
theorem C3_hexToBytes_left_inverse (upper : Bool) (bs : List Nat) (h : ∀ b ∈ bs, b < 256) :
    (50 ≤ bs.length → hexToBytes (.string (bytesToHex upper bs)) = .ok bs) ∧
    (bs.length < 50 → hexToBytes (.string (bytesToHex upper bs)) =
      .error (.error .generic (lit "Invalid hex string"))) := by
  constructor
  · intro hlen
    rw [hexToBytes_of_valid _ (isValidHexString_bytesToHex upper bs h hlen),
      pairValues_bytesToHex upper bs h]
  · intro hlen
    have hl := bytesToHex_length upper bs
    have hv : isValidHexString (.string (bytesToHex upper bs)) = false := by
      cases hv : isValidHexString (.string (bytesToHex upper bs)) with
      | false => rfl
      | true =>
        have := ((isValidHexString_string _).1 hv).2.2.2
        omega
    simp [hexToBytes, hv]

set_option maxRecDepth 100000 in
/-- C3 as amended, at the sample payload of fifty bytes. -/
theorem C3_hexToBytes_left_inverse_witness :
    (∀ b ∈ sampleBytes, b < 256) ∧
    (50 ≤ sampleBytes.length → hexToBytes (.string (bytesToHex true sampleBytes)) = .ok sampleBytes) ∧
    (sampleBytes.length < 50 → hexToBytes (.string (bytesToHex true sampleBytes)) =
      .error (.error .generic (lit "Invalid hex string"))) :=
  ⟨by decide, C3_hexToBytes_left_inverse true sampleBytes (by decide)⟩

/-! ## Retry logic: proofs -/

theorem isClientError_false_iff (e : Thrown) :
    isClientError e = false ↔ ∀ s, e.status = some s → s < 400 ∨ 500 ≤ s := by
  unfold isClientError
  cases e.status with
  | none => simp
  | some s =>
    simp only [Option.some.injEq, forall_eq']
    by_cases h1 : 400 ≤ s <;> by_cases h2 : s < 500 <;> simp [h1, h2] <;> omega

theorem retryLoop_failedRun (call : Nat → Except Thrown Response) (errs : Nat → Thrown)
    (n f : Nat) :
    ∀ (d a : Nat) (last : Thrown) (tr : List Event),
      (∀ j, a ≤ j → j < a + d → call j = .error (errs j) ∧ isClientError (errs j) = false) →
      a + d ≤ n + 1 →
      retryLoop call n (f + d) a last tr =
        retryLoop call n f (a + d) (if d = 0 then last else errs (a + d - 1))
          (tr ++ failedRun n errs a d) := by
  intro d
  induction d with
  | zero =>
    intro a last tr _ _
    simp [failedRun]
  | succ d ih =>
    intro a last tr hfail hle
    obtain ⟨hc, hs⟩ := hfail a (Nat.le_refl a) (by omega)
    have ha : a ≤ n := by omega
    have hstep : retryLoop call n (f + (d + 1)) a last tr =
        retryLoop call n (f + d) (a + 1) (errs a)
          ((tr ++ [.attempt a, .warn a n (errs a).message]) ++
            (if a < n then [Event.sleep (RETRY_DELAY * a)] else [])) := by
      rw [← Nat.add_assoc, retryLoop]
      simp only [ha, if_true, hc, hs, Bool.false_eq_true, if_false]
      split <;> simp
    rw [hstep, ih (a + 1) (errs a) _ (fun j h1 h2 => hfail j (by omega) (by omega)) (by omega)]
    have e1 : a + 1 + d = a + (d + 1) := by omega
    have e2 : (if d = 0 then errs a else errs (a + 1 + d - 1)) = errs (a + (d + 1) - 1) := by
      split
      · rename_i h0
        subst h0
        rfl
      · congr 1
        omega
    rw [e2, e1]
    simp [failedRun, List.append_assoc]

theorem attempts_append (t1 t2 : List Event) : attempts (t1 ++ t2) = attempts t1 + attempts t2 := by
  simp [attempts]

theorem delays_append (t1 t2 : List Event) : delays (t1 ++ t2) = delays t1 ++ delays t2 := by
  induction t1 with
  | nil => rfl
  | cons e t ih => cases e <;> simp [delays, ih]

theorem attempts_failedRun (n : Nat) (errs : Nat → Thrown) :
    ∀ d a, attempts (failedRun n errs a d) = d := by
  intro d
  induction d with
  | zero => intro a; rfl
  | succ d ih =>
    intro a
    rw [failedRun, attempts_append, ih]
    split <;> simp [attempts] <;> omega

theorem delays_failedRun_inner (n : Nat) (errs : Nat → Thrown) :
    ∀ d a, a + d ≤ n →
      delays (failedRun n errs a d) = (List.range' a d).map (fun k => RETRY_DELAY * k) := by
  intro d
  induction d with
  | zero => intro a _; rfl
  | succ d ih =>
    intro a h
    have ha : a < n := by omega
    rw [failedRun, delays_append, ih (a + 1) (by omega)]
    simp [ha, delays, List.range'_succ]

theorem delays_failedRun_full (n : Nat) (errs : Nat → Thrown) :
    ∀ d a, a + d = n →
      delays (failedRun n errs a (d + 1)) = (List.range' a d).map (fun k => RETRY_DELAY * k) := by
  intro d
  induction d with
  | zero =>
    intro a h
    have ha : ¬ a < n := by omega
    simp [failedRun, ha, delays]
  | succ d ih =>
    intro a h
    have ha : a < n := by omega
    rw [failedRun, delays_append, ih (a + 1) (by omega)]
    simp [ha, delays, List.range'_succ]

theorem fetchWithRetry_client (call : Nat → Except Thrown Response) (n : Nat) (e : Thrown)
    (hn : 1 ≤ n) (hc : isClientError e = true) (hfirst : call 1 = .error e) :
    fetchWithRetry call n = some ([.attempt 1, .warn 1 n e.message], .error e) := by
  simp [fetchWithRetry, retryLoop, hn, hfirst, hc]

theorem fetchWithRetry_all_fail (call : Nat → Except Thrown Response) (errs : Nat → Thrown)
    (n : Nat) (hn : 1 ≤ n)
    (hfail : ∀ k, 1 ≤ k → k ≤ n → call k = .error (errs k) ∧ isClientError (errs k) = false) :
    fetchWithRetry call n = some (failedRun n errs 1 n, .error (errs n)) := by
  have h := retryLoop_failedRun call errs n 1 n 1 (.value .undefined) []
    (fun j h1 h2 => hfail j h1 (by omega)) (by omega)
  have h0 : ¬ n = 0 := by omega
  have hgt : ¬ 1 + n ≤ n := by omega
  rw [fetchWithRetry, Nat.add_comm n 1, h]
  simp [retryLoop, h0, hgt]

theorem fetchWithRetry_first_success (call : Nat → Except Thrown Response) (errs : Nat → Thrown)
    (n k : Nat) (r : Response) (hk : 1 ≤ k) (hkn : k ≤ n)
    (hfail : ∀ j, 1 ≤ j → j < k → call j = .error (errs j) ∧ isClientError (errs j) = false)
    (hok : call k = .ok r) :
    fetchWithRetry call n = some (failedRun n errs 1 (k - 1) ++ [.attempt k], .ok r) := by
  have h := retryLoop_failedRun call errs n (n + 2 - k) (k - 1) 1 (.value .undefined) []
    (fun j h1 h2 => hfail j h1 (by omega)) (by omega)
  have e1 : n + 1 = n + 2 - k + (k - 1) := by omega
  have e2 : 1 + (k - 1) = k := by omega
  obtain ⟨f, hf⟩ : ∃ f, n + 2 - k = f + 1 := ⟨n + 1 - k, by omega⟩
  rw [fetchWithRetry, e1, h, e2, hf, retryLoop]
  simp [hkn, hok]

/-! ## Retry logic and submission: the claims -/

/-- C4: for a budget `n >= 1` and a status `s` in `[400, 500)`, when the first
attempt fails with an error of status `s`, `fetchWithRetry` makes exactly one
attempt, waits for no backoff delay, and re-raises that same error. -/
theorem C4_client_error_one_attempt (call : Nat → Except Thrown Response) (n : Nat)
    (e : Thrown) (s : Int) (hn : 1 ≤ n) (hs : e.status = some s) (h400 : 400 ≤ s)
    (h500 : s < 500) (hfirst : call 1 = .error e) :
    ∃ trace, fetchWithRetry call n = some (trace, .error e) ∧
      trace = [.attempt 1, .warn 1 n e.message] ∧ attempts trace = 1 ∧ delays trace = [] := by
  have hc : isClientError e = true := by simp [isClientError, hs, h400, h500]
  exact ⟨_, fetchWithRetry_client call n e hn hc hfirst, rfl, rfl, rfl⟩

/-- C4 at a first attempt answered with HTTP 422, budget 3. -/
theorem C4_client_error_one_attempt_witness :
    ∃ trace, fetchWithRetry rejectedOnce 3 = some (trace, .error clientError) ∧
      trace = [.attempt 1, .warn 1 3 clientError.message] ∧ attempts trace = 1 ∧
      delays trace = [] :=
  C4_client_error_one_attempt rejectedOnce 3 clientError 422 (by decide) (by decide) (by decide)
    (by decide) (by decide)

/-- C6: for a budget `n >= 1`, when the attempts `1..n` all fail with statuses
outside `[400, 500)`, `fetchWithRetry` makes exactly the attempts `1, ..., n` in
order, waits `RETRY_DELAY * k` after the `k`-th failure for `1 <= k < n` and
nothing after the `n`-th, and raises the error of the `n`-th attempt; when
attempt `k <= n` is the first to succeed, it returns that response after
exactly `k` attempts. -/
theorem C6_retry_sequence (call : Nat → Except Thrown Response) (errs : Nat → Thrown)
    (n : Nat) (hn : 1 ≤ n) :
    ((∀ k, 1 ≤ k → k ≤ n → call k = .error (errs k) ∧
        ∀ s, (errs k).status = some s → s < 400 ∨ 500 ≤ s) →
      fetchWithRetry call n = some (failedRun n errs 1 n, .error (errs n)) ∧
      attempts (failedRun n errs 1 n) = n ∧
      delays (failedRun n errs 1 n) = (List.range' 1 (n - 1)).map (fun k => RETRY_DELAY * k)) ∧
    (∀ k r, 1 ≤ k → k ≤ n →
      (∀ j, 1 ≤ j → j < k → call j = .error (errs j) ∧
        ∀ s, (errs j).status = some s → s < 400 ∨ 500 ≤ s) →
      call k = .ok r →
      fetchWithRetry call n = some (failedRun n errs 1 (k - 1) ++ [.attempt k], .ok r) ∧
      attempts (failedRun n errs 1 (k - 1) ++ [.attempt k]) = k ∧
      delays (failedRun n errs 1 (k - 1) ++ [.attempt k]) =
        (List.range' 1 (k - 1)).map (fun j => RETRY_DELAY * j)) := by
  constructor
  · intro hfail
    refine ⟨fetchWithRetry_all_fail call errs n hn
      (fun k h1 h2 => ⟨(hfail k h1 h2).1, (isClientError_false_iff _).2 (hfail k h1 h2).2⟩),
      attempts_failedRun n errs n 1, ?_⟩
    obtain ⟨m, rfl⟩ : ∃ m, n = m + 1 := ⟨n - 1, by omega⟩
    rw [delays_failedRun_full (m + 1) errs m 1 (by omega)]
    rfl
  · intro k r hk hkn hfail hok
    refine ⟨fetchWithRetry_first_success call errs n k r hk hkn
      (fun j h1 h2 => ⟨(hfail j h1 h2).1, (isClientError_false_iff _).2 (hfail j h1 h2).2⟩) hok,
      ?_, ?_⟩
    · rw [attempts_append, attempts_failedRun]
      simp only [attempts, List.filter_cons, List.filter_nil, List.length_singleton, if_true]
      omega
    · rw [delays_append, delays_failedRun_inner n errs (k - 1) 1 (by omega)]
      simp [delays]

/-- C6 at budget 3: three HTTP 503 failures give three attempts, the delays
1000 and 2000, and the last error; a success of attempt 2 is returned after two
attempts and one delay of 1000. -/
theorem C6_retry_sequence_witness :
    (fetchWithRetry alwaysFailing 3 =
        some ([.attempt 1, .warn 1 3 (some (lit "HTTP 503")), .sleep 1000,
               .attempt 2, .warn 2 3 (some (lit "HTTP 503")), .sleep 2000,
               .attempt 3, .warn 3 3 (some (lit "HTTP 503"))], .error serverError)) ∧
    (fetchWithRetry failingOnce 3 =
        some ([.attempt 1, .warn 1 3 (some (lit "HTTP 503")), .sleep 1000, .attempt 2],
          .ok okResponse)) :=
  ⟨((C6_retry_sequence alwaysFailing (fun _ => serverError) 3 (by decide)).1
      (fun _ _ _ => ⟨rfl, by decide⟩)).1,
   ((C6_retry_sequence failingOnce (fun _ => serverError) 3 (by decide)).2 2 okResponse
      (by decide) (by decide)
      (fun j h1 h2 => by
        have hj : j = 1 := by omega
        subst hj
        exact ⟨rfl, by decide⟩)
      rfl).1⟩

/-- C7: for a payload that is null/undefined or of size 0, `sendVoiceToAPI`
raises `APIError('Empty audio', 400, ...)` with an empty trace: no form data is
built and no attempt is made, whatever the network would answer. -/
theorem C7_empty_audio_rejected (audioBlob : Option Blob) (net : Nat → Except Thrown Response)
    (h : audioBlob = none ∨ ∃ b, audioBlob = some b ∧ b.size = 0) :
    sendVoiceToAPI audioBlob net =
      some ([], .error (.apiError (lit "Empty audio") 400 (.string (lit "No audio data to send")))) ∧
    (∀ trace result, sendVoiceToAPI audioBlob net = some (trace, result) →
      attempts trace = 0 ∧ Event.formData ∉ trace ∧
      result.toOption = none) := by
  have hmain : sendVoiceToAPI audioBlob net =
      some ([], .error (.apiError (lit "Empty audio") 400 (.string (lit "No audio data to send")))) := by
    rcases h with h | ⟨b, h, hb⟩
    · subst h
      rfl
    · subst h
      simp [sendVoiceToAPI, hb, newAPIError]
  refine ⟨hmain, ?_⟩
  intro trace result hres
  rw [hmain] at hres
  simp only [Option.some.injEq, Prod.mk.injEq] at hres
  obtain ⟨h1, h2⟩ := hres
  subst h1
  subst h2
  exact ⟨rfl, List.not_mem_nil _, rfl⟩

/-- C7 at a payload of size 0, on a network that would answer. -/
theorem C7_empty_audio_rejected_witness :
    sendVoiceToAPI (some { size := 0 }) failingOnce =
      some ([], .error (.apiError (lit "Empty audio") 400 (.string (lit "No audio data to send")))) :=
  (C7_empty_audio_rejected (some { size := 0 }) failingOnce (Or.inr ⟨_, rfl, rfl⟩)).1

/-- C5, the claim as stated fails: with the default budget of 3 attempts, when
the first attempt times out and the second would succeed, `fetchWithRetry`
makes one attempt and raises the timeout error (status 408), and
`sendVoiceToAPI` raises it too instead of resolving with the parsed body. -/
theorem C5_timeout_is_not_retried :
    fetchWithRetry (fun k => fetchWithTimeout (timeoutThenOk k) TIMEOUT) RETRY_ATTEMPTS =
      some ([.attempt 1, .warn 1 3 (some (lit "Request timeout"))], .error (timeoutError TIMEOUT)) ∧
    fetchWithRetry (fun k => fetchWithTimeout (timeoutThenOk k) TIMEOUT) RETRY_ATTEMPTS ≠
      some ([.attempt 1, .warn 1 3 (some (lit "Request timeout")), .sleep 1000, .attempt 2],
        .ok okResponse) ∧
    sendVoiceToAPI (some { size := 4 }) timeoutThenOk =
      some ([.formData, .attempt 1, .warn 1 3 (some (lit "Request timeout"))],
        .error (timeoutError TIMEOUT)) := by
  decide

/-- C5 as amended: a local timeout (the `APIError` of status 408 raised by
`fetchWithTimeout`) is not retried, 408 being in `[400, 500)`: for every budget
`n >= 1`, when the first attempt times out `fetchWithRetry` makes exactly one
attempt, waits for no delay and raises the timeout error, whatever the later
attempts would give; `sendVoiceToAPI` on a non-empty payload raises it too. -/
theorem C5_timeout_raised_at_once (net : Nat → Except Thrown Response) (n : Nat)
    (reason : JSString) (hn : 1 ≤ n) (hfirst : net 1 = .error (.error .abortError reason)) :
    fetchWithTimeout (net 1) TIMEOUT = .error (timeoutError TIMEOUT) ∧
    (timeoutError TIMEOUT).status = some 408 ∧
    fetchWithRetry (fun k => fetchWithTimeout (net k) TIMEOUT) n =
      some ([.attempt 1, .warn 1 n (some (lit "Request timeout"))],
        .error (timeoutError TIMEOUT)) ∧
    (∀ b : Blob, b.size ≠ 0 →
      sendVoiceToAPI (some b) net =
        some ([.formData, .attempt 1, .warn 1 RETRY_ATTEMPTS (some (lit "Request timeout"))],
          .error (timeoutError TIMEOUT))) := by
  have h1 : fetchWithTimeout (net 1) TIMEOUT = .error (timeoutError TIMEOUT) := by
    rw [hfirst]
    rfl
  have hc : isClientError (timeoutError TIMEOUT) = true := by decide
  have hr : ∀ m, 1 ≤ m → fetchWithRetry (fun k => fetchWithTimeout (net k) TIMEOUT) m =
      some ([.attempt 1, .warn 1 m (some (lit "Request timeout"))],
        .error (timeoutError TIMEOUT)) := fun m hm =>
    fetchWithRetry_client _ m (timeoutError TIMEOUT) hm hc h1
  refine ⟨h1, rfl, hr n hn, ?_⟩
  intro b hb
  simp only [sendVoiceToAPI, beq_iff_eq, hb, if_false, hr RETRY_ATTEMPTS (by decide)]
  rfl

/-- C5 as amended, on the network whose first `fetch` is aborted by the
deadline, with the default budget. -/
theorem C5_timeout_raised_at_once_witness :
    fetchWithRetry (fun k => fetchWithTimeout (timeoutThenOk k) TIMEOUT) 3 =
      some ([.attempt 1, .warn 1 3 (some (lit "Request timeout"))],
        .error (timeoutError TIMEOUT)) :=
  (C5_timeout_raised_at_once timeoutThenOk 3 _ (by decide) rfl).2.2.1

/-! ## Playback: proofs and the claim -/

theorem settle_counts (p : Playback) (r : Except Thrown Unit) :
    (settle p r).revoked = p.revoked ∧ (settle p r).created = p.created := by
  unfold settle
  split <;> exact ⟨rfl, rfl⟩

theorem report_counts (hasOnError : Bool) (p : Playback) (e : Thrown) :
    (report hasOnError p e).revoked = p.revoked ∧ (report hasOnError p e).created = p.created := by
  unfold report
  split <;> exact ⟨rfl, rfl⟩

theorem handle_counts (hasOnError : Bool) (p : Playback) (ev : PlaybackEvent) :
    (handle hasOnError p ev).revoked = p.revoked + 1 ∧
      (handle hasOnError p ev).created = p.created := by
  cases ev <;> simp [handle, settle_counts, report_counts]

theorem foldl_handle_counts (hasOnError : Bool) (events : List PlaybackEvent) :
    ∀ p : Playback, (events.foldl (handle hasOnError) p).revoked = p.revoked + events.length ∧
      (events.foldl (handle hasOnError) p).created = p.created := by
  induction events with
  | nil => intro p; exact ⟨rfl, rfl⟩
  | cons ev rest ih =>
    intro p
    obtain ⟨h1, h2⟩ := ih (handle hasOnError p ev)
    obtain ⟨h3, h4⟩ := handle_counts hasOnError p ev
    simp only [List.foldl_cons, List.length_cons]
    exact ⟨by omega, by rw [h2, h4]⟩

set_option maxRecDepth 100000 in
/-- C8, the claim as stated fails: on a valid input, when `play()` rejects and
the `error` event also fires, `URL.revokeObjectURL` is called twice on the one
created URL. -/
theorem C8_revoked_twice :
    isValidHexString (.string sampleHex) = true ∧
    (playAudioFromHex (.string sampleHex) true
      [.playRejected (.error .generic (lit "NotSupportedError")), .error none]).created = 1 ∧
    (playAudioFromHex (.string sampleHex) true
      [.playRejected (.error .generic (lit "NotSupportedError")), .error none]).revoked = 2 := by
  decide

/-- C8 as amended: for every valid hex input and every sequence of terminal
playback events delivered to the handlers, one object URL is created and
`URL.revokeObjectURL` is called on it once for each delivered event: once on the
first terminal event, and once more on each later one. -/
theorem C8_revoked_once_per_event (s : JSString) (hasOnError : Bool)
    (events : List PlaybackEvent) (h : isValidHexString (.string s) = true) :
    (playAudioFromHex (.string s) hasOnError events).created = 1 ∧
    (playAudioFromHex (.string s) hasOnError events).revoked = events.length ∧
    (∀ ev, (playAudioFromHex (.string s) hasOnError [ev]).revoked = 1) := by
  have hplay : ∀ evs, playAudioFromHex (.string s) hasOnError evs =
      evs.foldl (handle hasOnError)
        { created := 1, revoked := 0, settled := none, reported := [] } := by
    intro evs
    simp [playAudioFromHex, h, hexToBytes_of_valid s h]
  refine ⟨?_, ?_, ?_⟩
  · rw [hplay]
    exact (foldl_handle_counts hasOnError events _).2
  · rw [hplay, (foldl_handle_counts hasOnError events _).1]
    simp
  · intro ev
    rw [hplay, (foldl_handle_counts hasOnError [ev] _).1]
    rfl

set_option maxRecDepth 100000 in
/-- C8 as amended, at the sample payload with the single event `ended`. -/
theorem C8_revoked_once_per_event_witness :
    isValidHexString (.string sampleHex) = true ∧
    (playAudioFromHex (.string sampleHex) false [.ended]).revoked = 1 :=
  ⟨by decide, (C8_revoked_once_per_event sampleHex false [.ended] (by decide)).2.2 .ended⟩

/-! ## Error formatting: proofs and the claim -/

theorem decimalDigits_eq (fuel : Nat) :
    ∀ (n : Nat) (acc : JSString), n < fuel → 0 < n →
      decimalDigits fuel n acc = (Nat.digits 10 n).reverse.map (fun d => 48 + d) ++ acc := by
  induction fuel with
  | zero => intro n acc h; omega
  | succ fuel ih =>
    intro n acc hlt hpos
    by_cases h10 : n < 10
    · simp [decimalDigits, h10, Nat.digits_of_lt 10 n (by omega) h10]
    · rw [decimalDigits, if_neg h10, ih (n / 10) _ (by omega) (by omega),
        Nat.digits_def' (by decide) hpos]
      simp

theorem decimal_eq_numeral (n : Nat) : decimal n = numeral n := by
  unfold numeral
  by_cases h : n = 0
  · subst h
    rfl
  · rw [if_neg h, decimal, decimalDigits_eq (n + 1) n [] (by omega) (by omega)]
    simp

theorem joinItems_cons (v : JSValue) (rest : List JSValue) :
    JSValue.joinItems (v :: rest) =
      match rest with
      | [] => elementString v
      | _ :: _ =>
        match elementString v, JSValue.joinItems rest with
        | some a, some b => some (a ++ lit "," ++ b)
        | _, _ => none := by
  cases v <;> cases rest <;> simp [JSValue.joinItems, elementString]

theorem joinItems_some (items : List JSValue) :
    ∀ parts : List JSString, items.map elementString = parts.map some →
      JSValue.joinItems items = some ((lit ",").intercalate parts) := by
  induction items with
  | nil =>
    intro parts h
    cases parts with
    | nil => rfl
    | cons _ _ => simp at h
  | cons v rest ih =>
    intro parts h
    cases parts with
    | nil => simp at h
    | cons a as =>
      simp only [List.map_cons, List.cons.injEq] at h
      obtain ⟨hv, hrest⟩ := h
      rw [joinItems_cons]
      cases rest with
      | nil =>
        cases as with
        | nil => simp [hv, List.intercalate]
        | cons _ _ => simp at hrest
      | cons w ws =>
        cases as with
        | nil => simp at hrest
        | cons b bs =>
          simp only [hv, ih (b :: bs) hrest]
          simp [List.intercalate, List.intersperse]

theorem joinItems_none (items : List JSValue) (h : none ∈ items.map elementString) :
    JSValue.joinItems items = none := by
  induction items with
  | nil => simp at h
  | cons v rest ih =>
    rw [joinItems_cons]
    simp only [List.map_cons, List.mem_cons] at h
    cases rest with
    | nil =>
      rcases h with h | h
      · exact h.symm
      · simp at h
    | cons w ws =>
      rcases h with h | h
      · rw [← h]
      · rw [ih h]
        cases elementString v <;> rfl

theorem truthy_false_iff (v : JSValue) : v.truthy = false ↔ IsFalsy v := by
  unfold IsFalsy zero
  cases v with
  | number x =>
    cases x with
    | int negative magnitude =>
      cases negative <;> simp [JSValue.truthy, Fin.ext_iff]
    | _ => simp [JSValue.truthy]
  | boolean b => cases b <;> simp [JSValue.truthy]
  | string s => cases s <;> simp [JSValue.truthy]
  | _ => simp [JSValue.truthy]

/-- C9, the claim as stated fails: an `APIError` whose details are the empty
array, which `fetchWithTimeout` raises for an HTTP 422 answer with the body
`{"detail": []}`, has empty details, and `formatErrorMessage` does not return
its message alone: it returns `"HTTP 422: "`. -/
theorem C9_empty_array_details_keep_separator :
    fetchWithTimeout (.ok emptyDetailResponse) TIMEOUT =
      .error (newAPIError (lit "HTTP 422") 422 (.array [])) ∧
    formatErrorMessage (newAPIError (lit "HTTP 422") 422 (.array [])) ≠ some (lit "HTTP 422") ∧
    formatErrorMessage (newAPIError (lit "HTTP 422") 422 (.array [])) = some (lit "HTTP 422: ") := by
  decide

/-- C9 as amended: `formatErrorMessage` tests the truthiness of the details of
an `APIError`.  When they are truthy it returns `message + ": " +` their string
coercion: for a non-empty string the string itself, for an empty array the empty
string.  When they are falsy (the empty string, which absent details default to,
`null`, `false`, a zero, `NaN`) it returns the message alone.  For any other
`Error` it returns the message, and for any other value `String(e)`, whose
result is given here for every kind of value. -/
theorem C9_formatErrorMessage_by_truthiness :
    (∀ message status details, details.truthy = true →
      formatErrorMessage (newAPIError message status details) =
        details.toStringJS.map (fun d => message ++ lit ": " ++ d)) ∧
    (∀ message status d, d ≠ [] →
      formatErrorMessage (newAPIError message status (.string d)) =
        some (message ++ lit ": " ++ d)) ∧
    (∀ message status,
      formatErrorMessage (newAPIError message status (.array [])) = some (message ++ lit ": ") ∧
      formatErrorMessage (newAPIError message status .object) =
        some (message ++ lit ": " ++ lit "[object Object]")) ∧
    (∀ message status details, IsFalsy details →
      formatErrorMessage (newAPIError message status details) = some message) ∧
    (∀ details, details.truthy = false ↔ IsFalsy details) ∧
    (∀ kind message, formatErrorMessage (.error kind message) = some message) ∧
    (formatErrorMessage (.value .undefined) = some (lit "undefined") ∧
      formatErrorMessage (.value .null) = some (lit "null") ∧
      formatErrorMessage (.value (.boolean true)) = some (lit "true") ∧
      formatErrorMessage (.value (.boolean false)) = some (lit "false") ∧
      formatErrorMessage (.value (.number .nan)) = some (lit "NaN") ∧
      formatErrorMessage (.value (.number (.infinity false))) = some (lit "Infinity") ∧
      formatErrorMessage (.value (.number (.infinity true))) = some (lit "-Infinity") ∧
      formatErrorMessage (.value .object) = some (lit "[object Object]") ∧
      formatErrorMessage (.value (.number (zero true))) = some (lit "0") ∧
      formatErrorMessage (.value (.number minSafeInteger)) = some (lit "-9007199254740991")) ∧
    (∀ negative magnitude,
      formatErrorMessage (.value (.number (.int negative magnitude))) =
        some (if magnitude.val = 0 then lit "0"
          else (if negative then lit "-" else []) ++ numeral magnitude.val)) ∧
    (∀ n : Int,
      formatErrorMessage (.value (.bigint n)) =
        some ((if n < 0 then lit "-" else []) ++ numeral n.natAbs)) ∧
    (∀ rendered, formatErrorMessage (.value (.number (.float rendered))) = some rendered) ∧
    (∀ s, formatErrorMessage (.value (.string s)) = some s) ∧
    (∀ description,
      formatErrorMessage (.value (.symbol description)) =
        some (lit "Symbol(" ++ description ++ lit ")")) ∧
    (∀ coerced, formatErrorMessage (.value (.exotic coerced)) = coerced) ∧
    (∀ items parts, items.map elementString = parts.map some →
      formatErrorMessage (.value (.array items)) = some ((lit ",").intercalate parts)) ∧
    (∀ items, none ∈ items.map elementString →
      formatErrorMessage (.value (.array items)) = none) := by
  have hfalsy : ∀ message status details, details.truthy = false →
      formatErrorMessage (newAPIError message status details) = some message := by
    intro message status details h
    cases details <;> simp_all [formatErrorMessage, newAPIError, JSValue.truthy]
  have htruthy : ∀ message status details, details.truthy = true →
      formatErrorMessage (newAPIError message status details) =
        details.toStringJS.map (fun d => message ++ lit ": " ++ d) := by
    intro message status details h
    have hnew : newAPIError message status details = .apiError message status details := by
      cases details <;> simp_all [newAPIError, JSValue.truthy]
    rw [hnew]
    simp only [formatErrorMessage, h, if_true]
    cases details.toStringJS <;> rfl
  refine ⟨htruthy, ?_, ?_, ?_, truthy_false_iff, fun _ _ => rfl,
    ⟨rfl, rfl, rfl, rfl, rfl, rfl, rfl, rfl, by decide, by decide⟩, ?_, ?_, fun _ => rfl, fun _ => rfl, fun _ => rfl,
    fun _ => rfl, ?_, ?_⟩
  · intro message status d hd
    rw [htruthy message status (.string d) (by cases d <;> simp_all [JSValue.truthy])]
    rfl
  · intro message status
    constructor
    · rw [htruthy message status (.array []) rfl]
      simp [JSValue.toStringJS, JSValue.joinItems]
    · rw [htruthy message status .object rfl]
      rfl
  · intro message status details h
    exact hfalsy message status details ((truthy_false_iff details).2 h)
  · intro negative magnitude
    simp only [formatErrorMessage, JSValue.stringCall, JSValue.toStringJS, JSNumber.render,
      decimal_eq_numeral]
  · intro n
    simp only [formatErrorMessage, JSValue.stringCall, JSValue.toStringJS, decimal_eq_numeral]
  · intro items parts h
    simp only [formatErrorMessage, JSValue.stringCall, JSValue.toStringJS]
    exact joinItems_some items parts h
  · intro items h
    simp only [formatErrorMessage, JSValue.stringCall, JSValue.toStringJS]
    exact joinItems_none items h

/-- C9 as amended, on `APIError('HTTP 422', 422, 'bad')`, whose details are a
non-empty string, on `APIError('HTTP 422', 422, 0)`, whose details are falsy,
and on the thrown array `[1, null, "a"]`. -/
theorem C9_formatErrorMessage_by_truthiness_witness :
    formatErrorMessage (newAPIError (lit "HTTP 422") 422 (.string (lit "bad"))) =
      some (lit "HTTP 422: bad") ∧
    formatErrorMessage (newAPIError (lit "HTTP 422") 422 (.number (zero false))) =
      some (lit "HTTP 422") ∧
    formatErrorMessage (.value (.array thrownItems)) = some (lit "1,,a") :=
  ⟨C9_formatErrorMessage_by_truthiness.2.1 (lit "HTTP 422") 422 (lit "bad") (by decide),
   C9_formatErrorMessage_by_truthiness.2.2.2.1 (lit "HTTP 422") 422 (.number (zero false))
     (Or.inr (Or.inr (Or.inr (Or.inl rfl)))),
   C9_formatErrorMessage_by_truthiness.2.2.2.2.2.2.2.2.2.2.2.2.2.1
     thrownItems [lit "1", [], lit "a"] (by decide)⟩

/-! ## Recording counter: proofs and the claim -/

theorem generateNames_spec (calls : List (Option JSString × JSString)) :
    ∀ (st : Recorder),
      (generateNames calls st).2.recordingCount = st.recordingCount + calls.length ∧
      ∀ i (hi : i < calls.length),
        (generateNames calls st).1[i]? =
          some (nameWith calls[i].1 (st.recordingCount + i + 1) calls[i].2) := by
  induction calls with
  | nil =>
    intro st
    exact ⟨rfl, fun i hi => absurd hi (Nat.not_lt_zero i)⟩
  | cons c rest ih =>
    intro st
    obtain ⟨agentName, iso⟩ := c
    obtain ⟨h1, h2⟩ := ih (getRecordingFileName agentName iso st).2
    have hst : (getRecordingFileName agentName iso st).2.recordingCount =
        st.recordingCount + 1 := rfl
    constructor
    · simp only [generateNames, List.length_cons, h1, hst]
      omega
    · intro i hi
      cases i with
      | zero => simp [generateNames, getRecordingFileName, nameWith]
      | succ j =>
        have hj : j < rest.length := by
          simp only [List.length_cons] at hi
          omega
        simp only [generateNames, List.getElem?_cons_succ, List.getElem_cons_succ]
        rw [h2 j hj, hst]
        congr 2
        omega

/-- C10: the counter starts at 0; every call of `getRecordingFileName` adds
exactly 1 to it and returns `"{label}_{counter}_{timestamp}.wav"` with the
incremented value, the label defaulting to `"recording"`; `resetRecordingCounter`
sets it to 0; so the `k`-th call after the start or after a reset carries `k`. -/
theorem C10_recording_counter :
    Recorder.initial.recordingCount = 0 ∧
    (∀ agentName iso st,
      (getRecordingFileName agentName iso st).2.recordingCount = st.recordingCount + 1 ∧
      (getRecordingFileName agentName iso st).1 =
        agentName.getD (lit "recording") ++ lit "_" ++ lit (toString (st.recordingCount + 1)) ++
          lit "_" ++ timestampOf iso ++ lit ".wav") ∧
    (∀ st, (resetRecordingCounter st).recordingCount = 0) ∧
    (∀ calls st0 (i : Nat) (hi : i < calls.length),
      (generateNames calls Recorder.initial).1[i]? =
        some (nameWith calls[i].1 (i + 1) calls[i].2) ∧
      (generateNames calls (resetRecordingCounter st0)).1[i]? =
        some (nameWith calls[i].1 (i + 1) calls[i].2)) ∧
    (∀ iso1 iso2 iso3,
      (generateNames [(none, iso1), (none, iso2)] Recorder.initial).1 =
        [lit "recording_1_" ++ timestampOf iso1 ++ lit ".wav",
         lit "recording_2_" ++ timestampOf iso2 ++ lit ".wav"] ∧
      (getRecordingFileName none iso3 (resetRecordingCounter
          (generateNames [(none, iso1), (none, iso2)] Recorder.initial).2)).1 =
        lit "recording_1_" ++ timestampOf iso3 ++ lit ".wav") := by
  refine ⟨rfl, fun _ _ _ => ⟨rfl, rfl⟩, fun _ => rfl, ?_, ?_⟩
  · intro calls st0 i hi
    have h1 := (generateNames_spec calls Recorder.initial).2 i hi
    have h2 := (generateNames_spec calls (resetRecordingCounter st0)).2 i hi
    have e1 : Recorder.initial.recordingCount + i + 1 = i + 1 := by
      simp [Recorder.initial]
    have e2 : (resetRecordingCounter st0).recordingCount + i + 1 = i + 1 := by
      simp [resetRecordingCounter]
    rw [e1] at h1
    rw [e2] at h2
    exact ⟨h1, h2⟩
  · intro iso1 iso2 iso3
    have p1 : lit "recording" ++ lit "_" ++ lit (toString (0 + 1)) ++ lit "_" =
        lit "recording_1_" := by decide
    have p2 : lit "recording" ++ lit "_" ++ lit (toString (0 + 1 + 1)) ++ lit "_" =
        lit "recording_2_" := by decide
    simp only [generateNames, getRecordingFileName, resetRecordingCounter, Recorder.initial,
      Option.getD_none, p1, p2]
    exact ⟨trivial, trivial⟩

/-- C10 on two calls with the default label at the same instant: the names carry
1 and 2. -/
theorem C10_recording_counter_witness :
    (generateNames [(none, lit "2024-01-02T03:04:05.678Z"), (none, lit "2024-01-02T03:04:05.678Z")]
      Recorder.initial).1[1]? = some (lit "recording_2_2024-01-02T03-04-05.wav") :=
  (C10_recording_counter.2.2.2.1
    [(none, lit "2024-01-02T03:04:05.678Z"), (none, lit "2024-01-02T03:04:05.678Z")]
    Recorder.initial 1 (by decide)).1

end VoiceIQ
